import Mathlib

/-!
# FocusFlow session-monitoring core: Lean embedding

Shallow embedding of the FocusFlow study-session monitor: the distraction
detection module (activity tracking, bot-pattern detection, presence
monitoring, the distraction cooldown gate), the session timer, and the
focus-score computation from the database schema. Definitions follow the
JavaScript / SQL source; theorems check the specified properties.
-/

namespace FocusFlow

/-- Mirrors `CONFIG.DISTRACTION_COOLDOWN` (ms). -/
def DISTRACTION_COOLDOWN : Int := 10000

/-- Mirrors `CONFIG.CHECK_INTERVAL` (ms). -/
def CHECK_INTERVAL : Nat := 1000

/-- Mirrors `CONFIG.FACE_GRACE_PERIOD`. -/
def FACE_GRACE_PERIOD : Nat := 2

/-- Mirrors `CONFIG.MOUSE_THRESHOLD` (ms). -/
def MOUSE_THRESHOLD : Int := 60000

/-- Mirrors `CONFIG.LONG_PAUSE` (ms). -/
def LONG_PAUSE : Int := 180000

/-- The mutable `distractionState` object of the distraction module.
Timestamps are JavaScript `Date.now()` values in ms (integers); the
`detectionInterval` handle and `lastFaceCheck` scheduling field are timing
plumbing and are not part of the data model. `lastDistractionTime` starts
at `0`, which is falsy in JavaScript (meaning: no increment yet). -/
structure DistractionState where
  running : Bool
  mode : String
  lastActivityTime : Int
  lastDistractionTime : Int
  mouseInactiveTime : Nat
  keyboardInactiveTime : Nat
  tabSwitches : Nat
  distractionCount : Nat
  currentState : String
  cameraAbsenceTime : Nat
  consecutiveFaceFailures : Nat
  isFaceMissing : Bool
  isMultipleFaces : Bool
  deriving Repr, DecidableEq

/-- The state installed by `startDistractionTracking(mode)`. -/
def startDistractionTracking (now : Int) (mode : String) : DistractionState :=
  { running := true
    mode := mode
    lastActivityTime := now
    lastDistractionTime := 0
    mouseInactiveTime := 0
    keyboardInactiveTime := 0
    tabSwitches := 0
    distractionCount := 0
    currentState := "focused"
    cameraAbsenceTime := 0
    consecutiveFaceFailures := 0
    isFaceMissing := false
    isMultipleFaces := false }

/-- `checkDistraction(reason)`: the global cooldown gate. The JavaScript
guard is `lastDistractionTime && now - lastDistractionTime < COOLDOWN`,
where `lastDistractionTime = 0` is falsy (no previous increment), so the
event is discarded only when a previous increment exists and happened less
than `DISTRACTION_COOLDOWN` ms ago; otherwise `distractionCount` is
incremented and `lastDistractionTime` set to `now`. -/
def checkDistraction (now : Int) (s : DistractionState) : DistractionState :=
  if s.lastDistractionTime ≠ 0 ∧ now - s.lastDistractionTime < DISTRACTION_COOLDOWN then
    s
  else
    { s with distractionCount := s.distractionCount + 1, lastDistractionTime := now }

/-- Submitting a sequence of qualifying events (their `Date.now()`
timestamps, in order) to the cooldown gate. -/
def runGate (s : DistractionState) (evs : List Int) : DistractionState :=
  evs.foldl (fun s t => checkDistraction t s) s

/-- The timestamps of the events the gate accepts (those on which
`distractionCount` is incremented), branching exactly as
`checkDistraction` does. -/
def acceptedTimes (s : DistractionState) : List Int → List Int
  | [] => []
  | t :: ts =>
    if s.lastDistractionTime ≠ 0 ∧ t - s.lastDistractionTime < DISTRACTION_COOLDOWN then
      acceptedTimes s ts
    else
      t :: acceptedTimes
        { s with distractionCount := s.distractionCount + 1, lastDistractionTime := t } ts

lemma checkDistraction_step (now : Int) (s : DistractionState) :
    (s.lastDistractionTime ≠ 0 ∧ now - s.lastDistractionTime < DISTRACTION_COOLDOWN ∧
      checkDistraction now s = s) ∨
    ((checkDistraction now s).distractionCount = s.distractionCount + 1 ∧
      (checkDistraction now s).lastDistractionTime = now) := by
  unfold checkDistraction
  by_cases h : s.lastDistractionTime ≠ 0 ∧ now - s.lastDistractionTime < DISTRACTION_COOLDOWN
  · exact Or.inl ⟨h.1, h.2, by simp [h]⟩
  · exact Or.inr (by simp [h])

lemma runGate_cons (s : DistractionState) (t : Int) (ts : List Int) :
    runGate s (t :: ts) = runGate (checkDistraction t s) ts := rfl

lemma runGate_count (evs : List Int) (s : DistractionState) :
    (runGate s evs).distractionCount = s.distractionCount + (acceptedTimes s evs).length := by
  induction evs generalizing s with
  | nil => simp [runGate, acceptedTimes]
  | cons t ts ih =>
    rw [runGate_cons]
    by_cases h : s.lastDistractionTime ≠ 0 ∧ t - s.lastDistractionTime < DISTRACTION_COOLDOWN
    · have hcd : checkDistraction t s = s := by simp [checkDistraction, h]
      rw [hcd, ih s]
      simp only [acceptedTimes, if_pos h]
    · have hcd : checkDistraction t s =
          { s with distractionCount := s.distractionCount + 1, lastDistractionTime := t } := by
        simp [checkDistraction, h]
      rw [hcd, ih]
      simp only [acceptedTimes, if_neg h, List.length_cons]
      omega

lemma acceptedTimes_chain (evs : List Int) (s : DistractionState)
    (hpos : ∀ t ∈ evs, 0 < t) (hlast : 0 < s.lastDistractionTime) :
    List.Chain (fun a b => a + DISTRACTION_COOLDOWN ≤ b)
      s.lastDistractionTime (acceptedTimes s evs) := by
  induction evs generalizing s with
  | nil => exact List.Chain.nil
  | cons t ts ih =>
    by_cases h : s.lastDistractionTime ≠ 0 ∧ t - s.lastDistractionTime < DISTRACTION_COOLDOWN
    · simp only [acceptedTimes, if_pos h]
      exact ih s (fun u hu => hpos u (List.mem_cons_of_mem _ hu)) hlast
    · simp only [acceptedTimes, if_neg h]
      push_neg at h
      have hne : s.lastDistractionTime ≠ 0 := ne_of_gt hlast
      have hge : DISTRACTION_COOLDOWN ≤ t - s.lastDistractionTime := h hne
      refine List.Chain.cons (by omega) ?_
      exact ih { s with distractionCount := s.distractionCount + 1, lastDistractionTime := t }
        (fun u hu => hpos u (List.mem_cons_of_mem _ hu))
        (by simpa using hpos t (List.mem_cons_self _ _))

lemma acceptedTimes_chain' (evs : List Int) (s : DistractionState)
    (hpos : ∀ t ∈ evs, 0 < t) (hlast : s.lastDistractionTime = 0) :
    List.Chain' (fun a b => a + DISTRACTION_COOLDOWN ≤ b) (acceptedTimes s evs) := by
  cases evs with
  | nil => simp [acceptedTimes]
  | cons t ts =>
    have hcond : ¬(s.lastDistractionTime ≠ 0 ∧
        t - s.lastDistractionTime < DISTRACTION_COOLDOWN) := by
      intro hc; exact hc.1 hlast
    simp only [acceptedTimes, if_neg hcond]
    exact acceptedTimes_chain ts
      { s with distractionCount := s.distractionCount + 1, lastDistractionTime := t }
      (fun u hu => hpos u (List.mem_cons_of_mem _ hu))
      (by simpa using hpos t (List.mem_cons_self _ _))

/-- C1: starting from the freshly initialized distraction state, for every
sequence of qualifying-event timestamps (positive, as `Date.now()` values
are): the final `distractionCount` equals the number of accepted events
(each accepted event contributing exactly 1, each call either leaving the
state untouched or incrementing by exactly 1), and any two consecutive
accepted timestamps are at least `DISTRACTION_COOLDOWN = 10000` ms apart,
no matter how the events interleave. -/
theorem distractionCount_cooldown_invariant
    (now0 : Int) (mode : String) (evs : List Int)
    (hpos : ∀ t ∈ evs, 0 < t) :
    (runGate (startDistractionTracking now0 mode) evs).distractionCount =
      (acceptedTimes (startDistractionTracking now0 mode) evs).length ∧
    List.Chain' (fun a b => a + DISTRACTION_COOLDOWN ≤ b)
      (acceptedTimes (startDistractionTracking now0 mode) evs) ∧
    (∀ t s, checkDistraction t s = s ∨
      ((checkDistraction t s).distractionCount = s.distractionCount + 1 ∧
        (checkDistraction t s).lastDistractionTime = t)) := by
  refine ⟨?_, ?_, ?_⟩
  · have h := runGate_count evs (startDistractionTracking now0 mode)
    simpa [startDistractionTracking] using h
  · exact acceptedTimes_chain' evs _ hpos (by simp [startDistractionTracking])
  · intro t s
    rcases checkDistraction_step t s with ⟨_, _, h⟩ | h
    · exact Or.inl h
    · exact Or.inr h

/-- Witness for C1: events at 1, 5000 and 20000 ms — the gate accepts the
first and third, so the count is 2 and the accepted times are 10000+ ms
apart. -/
theorem distractionCount_cooldown_invariant_witness :
    (runGate (startDistractionTracking 0 "screen") [1, 5000, 20000]).distractionCount = 2 ∧
    acceptedTimes (startDistractionTracking 0 "screen") [1, 5000, 20000] = [1, 20000] := by
  have h := distractionCount_cooldown_invariant 0 "screen" [1, 5000, 20000]
    (by intro t ht; fin_cases ht <;> decide)
  refine ⟨?_, by decide⟩
  rw [h.1]; decide

/-! ## Focus score (database schema) -/

/-- Result of the `calculate_focus_score` trigger: the two fields it
writes on the inserted row. -/
structure ScoreResult where
  focus_score : ℚ
  recommended_technique : String
  deriving Repr, DecidableEq

/-- The PostgreSQL trigger function `calculate_focus_score` from
`supabase_schema.sql`. NUMERIC arithmetic is modelled over `ℚ`. SQL NULL
is modelled with `Option`: `NULLIF(duration, 0)` makes the ratio NULL when
`duration = 0`; `COALESCE(idle_ratio, 0)` recovers `0` for the idle
component, but the camera branch has no COALESCE, so with
`camera_enabled` and `duration = 0` the score becomes NULL, and
PostgreSQL's `GREATEST`/`LEAST` ignore NULL arguments, leaving
`GREATEST(0, LEAST(100, NULL)) = 100`. -/
def calculate_focus_score (duration mouse_inactive_time keyboard_inactive_time distractions : ℚ)
    (camera_enabled : Bool) (camera_absence_time : ℚ) : ScoreResult :=
  let total_idle := mouse_inactive_time + keyboard_inactive_time
  let idle_ratio : Option ℚ := if duration = 0 then none else some (total_idle / duration)
  let score1 := (1 - idle_ratio.getD 0) * 40
  let dist_penalty := max 0 (30 - distractions * 3)
  let score2 := score1 + dist_penalty
  let cons_score := if distractions = 0 then (20 : ℚ) else max 0 (20 - distractions * 2)
  let score3 := score2 + cons_score
  let cam_score : Option ℚ :=
    if camera_enabled then
      if duration = 0 then none else some ((1 - camera_absence_time / duration) * 10)
    else some 5
  let score4 : Option ℚ := cam_score.map (fun c => score3 + c)
  let clipped : ℚ :=
    match score4 with
    | none => 100
    | some v => max 0 (min 100 v)
  let recommended : String :=
    if distractions > 5 then "study-sprint"
    else if clipped ≥ 70 then "52-17"
    else if clipped ≥ 50 then "pomodoro"
    else "flowtime"
  ⟨clipped, recommended⟩

/-- Modelled from the spec words (§4.6 FocusScoreEngine), for comparison
with `calculate_focus_score`: each ratio is clamped with `min 1 ·` before
weighting, the idle ratio is `0` when `duration_s = 0`, and the sum is
clamped to `[0, 100]`. -/
def computeScore_spec (duration_s mouseIdle_s keyboardIdle_s distractions : ℚ)
    (cameraEnabled : Bool) (cameraAbsence_s : ℚ) : ℚ :=
  let idleRatio := if duration_s = 0 then 0 else min 1 ((mouseIdle_s + keyboardIdle_s) / duration_s)
  let idle := (1 - idleRatio) * 40
  let dist := max 0 (30 - distractions * 3)
  let cons := if distractions = 0 then (20 : ℚ) else max 0 (20 - distractions * 2)
  let cam := if cameraEnabled then (1 - min 1 (cameraAbsence_s / duration_s)) * 10 else 5
  max 0 (min 100 (idle + dist + cons + cam))

/-- The MySQL function `RecommendTechnique` from `supabase_schema.sql`
(same decision ladder the trigger uses). -/
def RecommendTechnique (avgDistractions avgFocusScore : ℚ) : String :=
  if avgDistractions > 5 then "study-sprint"
  else if avgFocusScore ≥ 70 then "52-17"
  else if avgFocusScore ≥ 50 then "pomodoro"
  else "flowtime"

/-- C2 counterexample: at duration 10 s with 20 s of mouse idle (idle
exceeding duration), the trigger computes idle ratio 2 with no `min(1,·)`
clamp, so the idle component is `(1 − 2) × 40 = −40` and the score is 15,
while the spec formula with the per-component clamp gives 55. -/
theorem calculate_focus_score_clamp_cex :
    (calculate_focus_score 10 20 0 0 false 0).focus_score = 15 ∧
    computeScore_spec 10 20 0 0 false 0 = 55 ∧
    (calculate_focus_score 10 20 0 0 false 0).focus_score ≠
      computeScore_spec 10 20 0 0 false 0 := by
  refine ⟨?_, ?_, ?_⟩ <;> norm_num [calculate_focus_score, computeScore_spec]

/-- C2 amended: the trigger applies no per-component `min(1,·)` clamp —
only the final result is clamped to `[0,100]` — so the spec formula holds
exactly on inputs where total idle and camera absence do not exceed the
(positive) duration; and the final score always lies in `[0, 100]`. -/
theorem calculate_focus_score_amended
    (duration mi ki d ca : ℚ) (cam : Bool)
    (hd : 0 < duration) (hmi : mi + ki ≤ duration) (hca : ca ≤ duration) :
    (calculate_focus_score duration mi ki d cam ca).focus_score =
      computeScore_spec duration mi ki d cam ca ∧
    0 ≤ (calculate_focus_score duration mi ki d cam ca).focus_score ∧
    (calculate_focus_score duration mi ki d cam ca).focus_score ≤ 100 := by
  have hd0 : duration ≠ 0 := ne_of_gt hd
  have hidle : (mi + ki) / duration ≤ 1 := (div_le_one hd).mpr hmi
  have hcam : ca / duration ≤ 1 := (div_le_one hd).mpr hca
  refine ⟨?_, ?_, ?_⟩
  · cases cam <;>
      simp [calculate_focus_score, computeScore_spec, hd0, min_eq_right hidle,
        min_eq_right hcam]
  · cases cam <;> simp [calculate_focus_score, hd0]
  · cases cam <;> simp [calculate_focus_score, hd0]

/-- Witness for C2's amended theorem at duration 100, idle 30 + 20,
4 distractions, camera on with 50 s absence. -/
theorem calculate_focus_score_amended_witness :
    (calculate_focus_score 100 30 20 4 true 50).focus_score =
      computeScore_spec 100 30 20 4 true 50 ∧
    (0 : ℚ) < 100 ∧ (30 : ℚ) + 20 ≤ 100 ∧ (50 : ℚ) ≤ 100 :=
  ⟨(calculate_focus_score_amended 100 30 20 4 50 true (by norm_num) (by norm_num)
      (by norm_num)).1, by norm_num, by norm_num, by norm_num⟩

/-- C3: the scenario-1 input — 1500 s, no idle, no distractions, camera
off — scores exactly 95 (40 + 30 + 20 + 5) with recommendation `52-17`. -/
theorem calculate_focus_score_scenario1 :
    calculate_focus_score 1500 0 0 0 false 0 = ⟨95, "52-17"⟩ := by
  norm_num [calculate_focus_score]

/-- C4: `distractions > 5` always yields `study-sprint` regardless of
score; otherwise the score thresholds 70 then 50 are tried in that order;
and the trigger's recommendation is exactly `RecommendTechnique` applied
to its distraction count and its clipped score. -/
theorem recommendation_precedence :
    (∀ d s : ℚ, d > 5 → RecommendTechnique d s = "study-sprint") ∧
    (∀ d s : ℚ, d ≤ 5 → RecommendTechnique d s =
      if s ≥ 70 then "52-17" else if s ≥ 50 then "pomodoro" else "flowtime") ∧
    (∀ (duration mi ki d ca : ℚ) (cam : Bool),
      (calculate_focus_score duration mi ki d cam ca).recommended_technique =
        RecommendTechnique d (calculate_focus_score duration mi ki d cam ca).focus_score) := by
  refine ⟨?_, ?_, ?_⟩
  · intro d s hd; simp [RecommendTechnique, hd]
  · intro d s hd
    have : ¬ d > 5 := not_lt.mpr hd
    simp [RecommendTechnique, this]
  · intro duration mi ki d ca cam
    rfl

/-- Witness for C4: 6 distractions recommend `study-sprint` even at score
0, and 0 distractions at score 80 recommend `52-17`. -/
theorem recommendation_precedence_witness :
    RecommendTechnique 6 0 = "study-sprint" ∧ RecommendTechnique 0 80 = "52-17" := by
  constructor
  · exact recommendation_precedence.1 6 0 (by norm_num)
  · rw [recommendation_precedence.2.1 0 80 (by norm_num)]; norm_num

/-! ## Session state and pause (study.js) -/

/-- The `sessionState` object of `study.js` (the DOM `timerInterval`
handle is timing plumbing, modelled separately by `TimerState`).
`idleTime` is `mouseInactiveTime / 1000`, a JavaScript number, hence `ℚ`. -/
structure SessionState where
  active : Bool
  paused : Bool
  startTime : Option Int
  duration : Nat
  technique : String
  studyMode : String
  cameraEnabled : Bool
  distractions : Nat
  tabSwitches : Nat
  mouseInactiveTime : Nat
  keyboardInactiveTime : Nat
  cameraAbsenceTime : Nat
  faceAbsenceTime : Nat
  idleTime : ℚ
  currentState : String
  deriving Repr, DecidableEq

/-- The initial `sessionState` literal at the top of `study.js`. -/
def initialSessionState : SessionState :=
  { active := false
    paused := false
    startTime := none
    duration := 0
    technique := "pomodoro"
    studyMode := "screen"
    cameraEnabled := false
    distractions := 0
    tabSwitches := 0
    mouseInactiveTime := 0
    keyboardInactiveTime := 0
    cameraAbsenceTime := 0
    faceAbsenceTime := 0
    idleTime := 0
    currentState := "focused" }

/-- `togglePause()`: flips `sessionState.paused`; the button label and the
timer opacity are then recomputed from the new flag
(`pauseBtnLabel`/`timerOpacityOf` below). -/
def togglePause (s : SessionState) : SessionState :=
  { s with paused := !s.paused }

/-- The pause-button label `togglePause` writes: `Resume` when paused,
`Pause` otherwise. -/
def pauseBtnLabel (s : SessionState) : String :=
  if s.paused then "Resume" else "Pause"

/-- The timer opacity `togglePause` writes: `0.5` when paused, `1`
otherwise. -/
def timerOpacityOf (s : SessionState) : String :=
  if s.paused then "0.5" else "1"

/-- C5 counterexample: from the initial (unpaused) state, applying
`togglePause` twice leaves the session unpaused while applying it once
leaves it paused, so the double application differs from the single one —
pause is a toggle, not idempotent. -/
theorem togglePause_not_idempotent_cex :
    togglePause (togglePause initialSessionState) ≠ togglePause initialSessionState ∧
    (togglePause (togglePause initialSessionState)).paused = false ∧
    (togglePause initialSessionState).paused = true := by
  refine ⟨?_, rfl, rfl⟩
  intro h
  have := congrArg SessionState.paused h
  simp [togglePause, initialSessionState] at this

/-- C5 amended: `togglePause` is an involution, not idempotent — applying
it twice restores the exact original session state (and hence the derived
button label), while a single application always flips the `paused`
flag. -/
theorem togglePause_involution (s : SessionState) :
    togglePause (togglePause s) = s ∧
    (togglePause s).paused = !s.paused ∧
    pauseBtnLabel (togglePause (togglePause s)) = pauseBtnLabel s := by
  refine ⟨?_, rfl, ?_⟩ <;> cases s <;> simp [togglePause, pauseBtnLabel]

/-! ## Presence monitoring (camera callback in updateDistractionLoop) -/

/-- Result of the external frame-presence detector
(`detectFacePresence`). -/
structure FaceResult where
  face_detected : Bool
  face_count : Nat
  deriving Repr, DecidableEq

/-- The absence reason string submitted to the cooldown gate. -/
def ABSENCE_REASON : String := "Face not detected (Sustained)"

/-- The multiple-faces reason string submitted to the cooldown gate. -/
def MULTIFACE_REASON : String := "Multiple faces detected"

/-- The `detectFacePresence(videoEl).then(result => ...)` callback inside
`updateDistractionLoop`: on a failed poll increment
`consecutiveFaceFailures` and add 5000 ms to `cameraAbsenceTime`, and
raise the sustained-absence event (through `checkDistraction`) only when
`isFaceMissing` was false and the failure streak reached
`FACE_GRACE_PERIOD`; on a successful poll reset the streak and
`isFaceMissing`, with the edge-triggered multiple-faces event when
`face_count > 1`. Returns the new state and the reasons submitted to the
gate. -/
def facePollUpdate (now : Int) (r : FaceResult) (s : DistractionState) :
    DistractionState × List String :=
  if !r.face_detected then
    let s1 := { s with consecutiveFaceFailures := s.consecutiveFaceFailures + 1,
                       cameraAbsenceTime := s.cameraAbsenceTime + 5000 }
    if s1.isFaceMissing = false ∧ FACE_GRACE_PERIOD ≤ s1.consecutiveFaceFailures then
      (checkDistraction now { s1 with isFaceMissing := true }, [ABSENCE_REASON])
    else (s1, [])
  else
    let s1 := { s with consecutiveFaceFailures := 0, isFaceMissing := false }
    if 1 < r.face_count then
      if s1.isMultipleFaces = false then
        (checkDistraction now { s1 with isMultipleFaces := true }, [MULTIFACE_REASON])
      else (s1, [])
    else ({ s1 with isMultipleFaces := false }, [])

/-- A sequence of presence polls (poll timestamp and detector result),
threaded through `facePollUpdate`, collecting all submitted reasons. -/
def runFacePolls (s : DistractionState) : List (Int × FaceResult) → DistractionState × List String
  | [] => (s, [])
  | (now, r) :: ps =>
    let step := facePollUpdate now r s
    let rest := runFacePolls step.1 ps
    (rest.1, step.2 ++ rest.2)

/-- `n` consecutive failed polls at a fixed timestamp. -/
def failedPolls (now : Int) (n : Nat) : List (Int × FaceResult) :=
  List.replicate n (now, ⟨false, 0⟩)

lemma checkDistraction_isFaceMissing (now : Int) (s : DistractionState) :
    (checkDistraction now s).isFaceMissing = s.isFaceMissing := by
  unfold checkDistraction; split <;> rfl

lemma checkDistraction_consecutiveFaceFailures (now : Int) (s : DistractionState) :
    (checkDistraction now s).consecutiveFaceFailures = s.consecutiveFaceFailures := by
  unfold checkDistraction; split <;> rfl

lemma checkDistraction_cameraAbsenceTime (now : Int) (s : DistractionState) :
    (checkDistraction now s).cameraAbsenceTime = s.cameraAbsenceTime := by
  unfold checkDistraction; split <;> rfl

lemma runFacePolls_missing (n : Nat) (now : Int) (s : DistractionState)
    (h : s.isFaceMissing = true) :
    (runFacePolls s (failedPolls now n)).2 = [] ∧
    (runFacePolls s (failedPolls now n)).1.isFaceMissing = true := by
  induction n generalizing s with
  | zero => exact ⟨rfl, h⟩
  | succ n ih =>
    have hstep : facePollUpdate now ⟨false, 0⟩ s =
        ({ s with consecutiveFaceFailures := s.consecutiveFaceFailures + 1,
                  cameraAbsenceTime := s.cameraAbsenceTime + 5000 }, []) := by
      simp [facePollUpdate, h]
    simp only [failedPolls, List.replicate_succ, runFacePolls, hstep]
    have := ih { s with consecutiveFaceFailures := s.consecutiveFaceFailures + 1,
                        cameraAbsenceTime := s.cameraAbsenceTime + 5000 } h
    simp only [failedPolls] at this
    simpa using this

lemma runFacePolls_absence_count (n : Nat) (now : Int) (s : DistractionState)
    (h : s.isFaceMissing = false) :
    (runFacePolls s (failedPolls now n)).2.count ABSENCE_REASON =
      if 1 ≤ n ∧ FACE_GRACE_PERIOD ≤ s.consecutiveFaceFailures + n then 1 else 0 := by
  induction n generalizing s with
  | zero => simp [failedPolls, runFacePolls]
  | succ n ih =>
    by_cases hc : FACE_GRACE_PERIOD ≤ s.consecutiveFaceFailures + 1
    · have hstep : facePollUpdate now ⟨false, 0⟩ s =
          (checkDistraction now
            { s with consecutiveFaceFailures := s.consecutiveFaceFailures + 1,
                     cameraAbsenceTime := s.cameraAbsenceTime + 5000,
                     isFaceMissing := true }, [ABSENCE_REASON]) := by
        simp [facePollUpdate, h, hc]
      have hmiss : (checkDistraction now
          { s with consecutiveFaceFailures := s.consecutiveFaceFailures + 1,
                   cameraAbsenceTime := s.cameraAbsenceTime + 5000,
                   isFaceMissing := true }).isFaceMissing = true := by
        rw [checkDistraction_isFaceMissing]
      have hrest := runFacePolls_missing n now _ hmiss
      simp only [failedPolls, List.replicate_succ, runFacePolls, hstep]
      simp only [failedPolls] at hrest
      rw [List.count_append, hrest.1]
      have hcond : 1 ≤ n + 1 ∧ FACE_GRACE_PERIOD ≤ s.consecutiveFaceFailures + (n + 1) := by
        constructor
        · omega
        · unfold FACE_GRACE_PERIOD at hc ⊢; omega
      simp [List.count_cons, ABSENCE_REASON, hcond]
    · have hstep : facePollUpdate now ⟨false, 0⟩ s =
          ({ s with consecutiveFaceFailures := s.consecutiveFaceFailures + 1,
                    cameraAbsenceTime := s.cameraAbsenceTime + 5000 }, []) := by
        simp [facePollUpdate, h, hc]
      simp only [failedPolls, List.replicate_succ, runFacePolls, hstep]
      have hih := ih { s with consecutiveFaceFailures := s.consecutiveFaceFailures + 1,
                              cameraAbsenceTime := s.cameraAbsenceTime + 5000 } h
      simp only [failedPolls] at hih
      rw [List.count_append]
      simp only [List.count_nil, Nat.zero_add]
      rw [hih]
      unfold FACE_GRACE_PERIOD at hc ⊢
      split_ifs with hA hB <;> omega

/-- C6: the sustained-absence event is submitted by a poll exactly when
the detector reported no face, `isFaceMissing` was previously false, and
the incremented failure streak reaches the grace period 2; over any run of
`n` consecutive failed polls starting with `isFaceMissing = false` the
event is raised at most once (exactly once iff the streak reaches 2); and
a single failed poll followed by a successful one, from a fresh session,
resets `consecutiveFaceFailures` to 0 and `isFaceMissing` to false and
submits no event at all. -/
theorem sustained_absence_edge_trigger :
    (∀ (now : Int) (r : FaceResult) (s : DistractionState),
      ABSENCE_REASON ∈ (facePollUpdate now r s).2 ↔
        (r.face_detected = false ∧ s.isFaceMissing = false ∧
          FACE_GRACE_PERIOD ≤ s.consecutiveFaceFailures + 1)) ∧
    (∀ (n : Nat) (now : Int) (s : DistractionState), s.isFaceMissing = false →
      (runFacePolls s (failedPolls now n)).2.count ABSENCE_REASON =
        if 1 ≤ n ∧ FACE_GRACE_PERIOD ≤ s.consecutiveFaceFailures + n then 1 else 0) ∧
    ((runFacePolls (startDistractionTracking 0 "screen")
        [(5000, ⟨false, 0⟩), (10000, ⟨true, 1⟩)]).1.consecutiveFaceFailures = 0 ∧
      (runFacePolls (startDistractionTracking 0 "screen")
        [(5000, ⟨false, 0⟩), (10000, ⟨true, 1⟩)]).1.isFaceMissing = false ∧
      (runFacePolls (startDistractionTracking 0 "screen")
        [(5000, ⟨false, 0⟩), (10000, ⟨true, 1⟩)]).2 = []) := by
  refine ⟨?_, runFacePolls_absence_count, ?_, ?_, ?_⟩
  · intro now r s
    cases hr : r.face_detected with
    | false =>
      by_cases hc : s.isFaceMissing = false ∧
          FACE_GRACE_PERIOD ≤ s.consecutiveFaceFailures + 1
      · simp [facePollUpdate, hr, hc.1, hc.2]
      · rw [not_and_or] at hc
        rcases hc with hc | hc
        · have hm : s.isFaceMissing = true := by
            cases hmv : s.isFaceMissing
            · exact absurd hmv hc
            · rfl
          simp [facePollUpdate, hr, hm]
        · simp [facePollUpdate, hr, hc, ABSENCE_REASON]
    | true =>
      by_cases hc : 1 < r.face_count
      · by_cases hm : s.isMultipleFaces = false <;>
          simp [facePollUpdate, hr, hc, hm, ABSENCE_REASON, MULTIFACE_REASON]
      · simp [facePollUpdate, hr, hc, ABSENCE_REASON]
  · decide
  · decide
  · decide

/-- Witness for C6: two consecutive failed polls from a fresh session
raise the sustained-absence event exactly once. -/
theorem sustained_absence_edge_trigger_witness :
    (runFacePolls (startDistractionTracking 0 "screen")
      (failedPolls 5000 2)).2.count ABSENCE_REASON = 1 := by
  have h := sustained_absence_edge_trigger.2.1 2 5000
    (startDistractionTracking 0 "screen") (by decide)
  rw [h]
  decide

/-! ## Bot-pattern detection (resetActivity / detectBotPattern) -/

/-- Mirrors `MOUSE_HISTORY_SIZE`. -/
def MOUSE_HISTORY_SIZE : Nat := 5

/-- Consecutive inter-arrival intervals `timestamps[i] − timestamps[i−1]`
of a list of mouse-event timestamps. -/
def intervals (ts : List ℚ) : List ℚ :=
  (ts.zip ts.tail).map fun p => p.2 - p.1

/-- `intervals.reduce((a, b) => a + b) / intervals.length`: the mean. -/
def avg (xs : List ℚ) : ℚ := xs.sum / xs.length

/-- `intervals.reduce((a, b) => a + Math.pow(b - avg, 2), 0) /
intervals.length`: the population variance. -/
def variance (xs : List ℚ) : ℚ :=
  (xs.map fun b => (b - avg xs) ^ 2).sum / xs.length

/-- `detectBotPattern(timestamps)`: below 3 timestamps it returns early;
otherwise it flags a bot when `Math.sqrt(variance) < 20 && avg > 1000`,
calling `checkDistraction` with the bot reason and `showFocusAlert` with
the advisory. The square-root comparison is encoded by the equivalent
executable test `variance < 400` (equivalence with `Real.sqrt` is proved
in `bot_detection_iff`). Returns the gate reason and the advisory, when
raised. -/
def detectBotPattern (ts : List ℚ) : Option String × Option String :=
  if ts.length < 3 then (none, none)
  else if variance (intervals ts) < 400 ∧ avg (intervals ts) > 1000 then
    (some "Bot behavior suspected (Perfect Timing)", some "Please stop using automated scripts.")
  else (none, none)

/-- The mouse branch of `resetActivity`: push the new timestamp; once the
buffer exceeds `MOUSE_HISTORY_SIZE` entries, shift the oldest out and run
`detectBotPattern` on the retained timestamps. -/
def mouseEventStep (now : ℚ) (buf : List ℚ) : List ℚ × (Option String × Option String) :=
  let buf1 := buf ++ [now]
  if MOUSE_HISTORY_SIZE < buf1.length then
    (buf1.tail, detectBotPattern buf1.tail)
  else (buf1, (none, none))

/-- C7: with a full 5-entry buffer, each new mouse event retains the 5
most recent timestamps and raises the bot-suspected gate event together
with the user advisory exactly when the population standard deviation of
the inter-arrival intervals is below 20 ms and their mean exceeds 1000 ms
(and otherwise raises nothing). -/
theorem bot_detection_iff (now : ℚ) (buf : List ℚ) (h : buf.length = 5) :
    (mouseEventStep now buf).1 = (buf ++ [now]).tail ∧
    ((mouseEventStep now buf).1).length = 5 ∧
    ((mouseEventStep now buf).2 =
        (some "Bot behavior suspected (Perfect Timing)",
         some "Please stop using automated scripts.") ↔
      (Real.sqrt ((variance (intervals ((buf ++ [now]).tail)) : ℚ) : ℝ) < 20 ∧
        avg (intervals ((buf ++ [now]).tail)) > 1000)) ∧
    ((mouseEventStep now buf).2 =
        (some "Bot behavior suspected (Perfect Timing)",
         some "Please stop using automated scripts.") ∨
      (mouseEventStep now buf).2 = (none, none)) := by
  have hlen : (buf ++ [now]).length = 6 := by simp [h]
  have hcond : MOUSE_HISTORY_SIZE < (buf ++ [now]).length := by
    rw [hlen]; decide
  have htail : ((buf ++ [now]).tail).length = 5 := by
    rw [List.length_tail, hlen]
  have hstep : mouseEventStep now buf = ((buf ++ [now]).tail,
      detectBotPattern ((buf ++ [now]).tail)) := by
    simp [mouseEventStep, MOUSE_HISTORY_SIZE, h]
  have hsqrt : Real.sqrt ((variance (intervals ((buf ++ [now]).tail)) : ℚ) : ℝ) < 20 ↔
      variance (intervals ((buf ++ [now]).tail)) < 400 := by
    rw [Real.sqrt_lt' (by norm_num : (0 : ℝ) < 20)]
    constructor
    · intro hx
      have : ((variance (intervals ((buf ++ [now]).tail)) : ℚ) : ℝ) < ((400 : ℚ) : ℝ) := by
        push_cast; linarith
      exact_mod_cast this
    · intro hx
      have : ((variance (intervals ((buf ++ [now]).tail)) : ℚ) : ℝ) < ((400 : ℚ) : ℝ) := by
        exact_mod_cast hx
      push_cast at this; linarith
  rw [hstep]
  refine ⟨rfl, htail, ?_, ?_⟩
  · rw [hsqrt]
    unfold detectBotPattern
    rw [if_neg (by rw [htail]; decide)]
    by_cases hb : variance (intervals ((buf ++ [now]).tail)) < 400 ∧
        avg (intervals ((buf ++ [now]).tail)) > 1000
    · simp [hb]
    · simp only [if_neg hb]
      constructor
      · intro hcontra; exact absurd (congrArg Prod.fst hcontra) (by simp)
      · intro hcontra; exact absurd hcontra hb
  · unfold detectBotPattern
    rw [if_neg (by rw [htail]; decide)]
    by_cases hb : variance (intervals ((buf ++ [now]).tail)) < 400 ∧
        avg (intervals ((buf ++ [now]).tail)) > 1000
    · exact Or.inl (by simp [hb])
    · exact Or.inr (by simp [hb])

/-- Witness for C7: mouse events exactly 2000 ms apart (zero variance,
mean 2000 > 1000) trigger the bot signal once the buffer is full. -/
theorem bot_detection_iff_witness :
    (mouseEventStep 10000 [0, 2000, 4000, 6000, 8000]).2 =
      (some "Bot behavior suspected (Perfect Timing)",
       some "Please stop using automated scripts.") := by
  have h := bot_detection_iff 10000 [0, 2000, 4000, 6000, 8000] (by decide)
  refine h.2.2.1.mpr ⟨?_, ?_⟩
  · have hv : variance (intervals ((([0, 2000, 4000, 6000, 8000] : List ℚ) ++ [10000]).tail)) =
        0 := by norm_num [variance, intervals, avg]
    rw [hv]
    push_cast
    rw [Real.sqrt_zero]
    norm_num
  · have ha : avg (intervals ((([0, 2000, 4000, 6000, 8000] : List ℚ) ++ [10000]).tail)) =
        2000 := by norm_num [variance, intervals, avg]
    rw [ha]
    norm_num

/-! ## Session timer (study.js startTimer) -/

/-- `TECHNIQUES[t].study` (seconds): the fixed study-phase duration per
technique; `flowtime` is open-ended (`null`). -/
def TECHNIQUES_study : String → Option Nat
  | "pomodoro" => some (25 * 60)
  | "52-17" => some (52 * 60)
  | "study-sprint" => some (15 * 60)
  | _ => none

/-- The countdown closure of `startTimer`: the captured `remainingTime`
(`none` for flowtime's `null`) and whether the interval is still
installed (cleared when the countdown hits zero). -/
structure TimerState where
  remaining : Option Int
  intervalActive : Bool
  deriving Repr, DecidableEq

/-- `startTimer()`: `remainingTime = config.study`, reduced by the
already-accumulated `sessionState.duration` when resuming a countdown
technique. -/
def startTimer (s : SessionState) : TimerState :=
  match TECHNIQUES_study s.technique with
  | some d =>
    let r : Int := d
    let r := if 0 < s.duration then r - s.duration else r
    { remaining := some r, intervalActive := true }
  | none => { remaining := none, intervalActive := true }

/-- One firing of the `startTimer` interval: skip when paused; otherwise
increment `sessionState.duration`, and for a countdown decrement
`remainingTime`, clearing the interval and signalling phase completion
(the alert text) at `remaining ≤ 0` — without ending the session. -/
def timerTick (s : SessionState) (t : TimerState) :
    SessionState × TimerState × List String :=
  if !t.intervalActive then (s, t, [])
  else if s.paused then (s, t, [])
  else
    let s1 := { s with duration := s.duration + 1 }
    match t.remaining with
    | some r =>
      let r1 := r - 1
      if r1 ≤ 0 then
        (s1, { remaining := some r1, intervalActive := false },
          ["Study session complete! Time for a break."])
      else (s1, { remaining := some r1, intervalActive := true }, [])
    | none => (s1, t, [])

/-- C9: the four techniques get their fixed study durations (pomodoro
1500 s, 52-17 3120 s, study-sprint 900 s, flowtime open-ended); starting
the timer over an accumulated elapsed duration initializes
`remaining = studyDuration − elapsed`; every unpaused countdown tick adds
exactly 1 to the elapsed duration and subtracts exactly 1 from the
remaining time, preserving `duration + remaining = studyDuration` (no
double-counting); and when the remaining time reaches ≤ 0 the interval is
cleared and completion signalled while the session stays active. -/
theorem timer_countdown_behaviour :
    TECHNIQUES_study "pomodoro" = some 1500 ∧
    TECHNIQUES_study "52-17" = some 3120 ∧
    TECHNIQUES_study "study-sprint" = some 900 ∧
    TECHNIQUES_study "flowtime" = none ∧
    (∀ (s : SessionState) (d : Nat), TECHNIQUES_study s.technique = some d →
      (startTimer s).remaining = some ((d : Int) - s.duration) ∧
      (startTimer s).intervalActive = true) ∧
    (∀ (s : SessionState) (t : TimerState) (r : Int),
      s.paused = false → t.intervalActive = true → t.remaining = some r →
      (timerTick s t).1.duration = s.duration + 1 ∧
      (timerTick s t).2.1.remaining = some (r - 1) ∧
      (timerTick s t).1.active = s.active ∧
      (r - 1 ≤ 0 → (timerTick s t).2.1.intervalActive = false ∧
        (timerTick s t).2.2 = ["Study session complete! Time for a break."]) ∧
      (0 < r - 1 → (timerTick s t).2.1.intervalActive = true ∧
        (timerTick s t).2.2 = [])) ∧
    (∀ (s : SessionState) (t : TimerState) (r dtot : Int),
      s.paused = false → t.intervalActive = true → t.remaining = some r →
      (s.duration : Int) + r = dtot →
      ((timerTick s t).1.duration : Int) + ((timerTick s t).2.1.remaining.getD 0) = dtot) := by
  refine ⟨rfl, rfl, rfl, rfl, ?_, ?_, ?_⟩
  · intro s d hd
    unfold startTimer
    rw [hd]
    rcases Nat.eq_zero_or_pos s.duration with h0 | h0
    · rw [h0]; simp
    · simp [h0]
  · intro s t r hp hi hr
    by_cases hle : r - 1 ≤ 0 <;> simp [timerTick, hp, hi, hr, hle]
    omega
  · intro s t r dtot hp hi hr hsum
    by_cases hle : r - 1 ≤ 0 <;> simp [timerTick, hp, hi, hr, hle] <;> omega

/-- Witness for C9: a pomodoro session resumed at 100 s elapsed starts
with 1400 s remaining, and one unpaused tick moves it to
duration 101, remaining 1399. -/
theorem timer_countdown_behaviour_witness :
    (startTimer { initialSessionState with technique := "pomodoro", duration := 100 }).remaining
        = some 1400 ∧
    (timerTick { initialSessionState with technique := "pomodoro", duration := 100 }
        ⟨some 1400, true⟩).1.duration = 101 ∧
    (timerTick { initialSessionState with technique := "pomodoro", duration := 100 }
        ⟨some 1400, true⟩).2.1.remaining = some 1399 := by
  refine ⟨?_, ?_, ?_⟩
  · have h := timer_countdown_behaviour.2.2.2.2.1
      { initialSessionState with technique := "pomodoro", duration := 100 } 1500 rfl
    rw [h.1]; norm_num
  · exact (timer_countdown_behaviour.2.2.2.2.2.1
      { initialSessionState with technique := "pomodoro", duration := 100 }
      ⟨some 1400, true⟩ 1400 rfl rfl rfl).1
  · have h := (timer_countdown_behaviour.2.2.2.2.2.1
      { initialSessionState with technique := "pomodoro", duration := 100 }
      ⟨some 1400, true⟩ 1400 rfl rfl rfl).2.1
    rw [h]; norm_num

/-! ## The periodic ticks against shared state (C8, C10) -/

lemma checkDistraction_mouseInactiveTime (now : Int) (s : DistractionState) :
    (checkDistraction now s).mouseInactiveTime = s.mouseInactiveTime := by
  unfold checkDistraction; split <;> rfl

lemma checkDistraction_keyboardInactiveTime (now : Int) (s : DistractionState) :
    (checkDistraction now s).keyboardInactiveTime = s.keyboardInactiveTime := by
  unfold checkDistraction; split <;> rfl

/-- The synchronous body of `updateDistractionLoop` (the 1-second tick):
idle-time accumulation and the screen/book state machine. The camera
branch is asynchronous and modelled separately by `facePollUpdate`. The
loop is gated only on `distractionState.running`; it never consults the
session pause flag. -/
def updateDistractionLoop (now : Int) (s : DistractionState) : DistractionState :=
  if !s.running then s
  else
    let idleTime := now - s.lastActivityTime
    let s1 :=
      if 1000 < idleTime then
        { s with mouseInactiveTime := s.mouseInactiveTime + CHECK_INTERVAL,
                 keyboardInactiveTime := s.keyboardInactiveTime + CHECK_INTERVAL }
      else s
    if s1.mode = "screen" then
      if LONG_PAUSE < idleTime then
        if s1.currentState ≠ "away" then
          checkDistraction now { s1 with currentState := "away" }
        else s1
      else if MOUSE_THRESHOLD < idleTime then
        if s1.currentState ≠ "distracted" then
          checkDistraction now { s1 with currentState := "distracted" }
        else s1
      else { s1 with currentState := "focused" }
    else
      if 0 < idleTime then { s1 with currentState := "reading" } else s1

/-- One tick of the `startMonitoring` interval: skipped when the session
is inactive or paused; otherwise copies the distraction metrics into
`sessionState`. `cameraAbsenceTime` is not among the copied fields. -/
def monitoringSyncTick (s : SessionState) (d : DistractionState) : SessionState :=
  if !s.active || s.paused then s
  else
    { s with distractions := d.distractionCount,
             tabSwitches := d.tabSwitches,
             mouseInactiveTime := d.mouseInactiveTime,
             keyboardInactiveTime := d.keyboardInactiveTime,
             idleTime := (d.mouseInactiveTime : ℚ) / 1000,
             currentState := d.currentState }

/-- The shared mutable state the three periodic tasks operate on. -/
structure AppState where
  session : SessionState
  distraction : DistractionState
  timer : TimerState
  deriving Repr, DecidableEq

/-- The timer tick acting on the shared state. -/
def timerTickApp (a : AppState) : AppState :=
  let r := timerTick a.session a.timer
  { a with session := r.1, timer := r.2.1 }

/-- The metrics-sync tick acting on the shared state. -/
def monitoringSyncTickApp (a : AppState) : AppState :=
  { a with session := monitoringSyncTick a.session a.distraction }

/-- The distraction-loop tick acting on the shared state. -/
def distractionTickApp (now : Int) (a : AppState) : AppState :=
  { a with distraction := updateDistractionLoop now a.distraction }

/-- A resolved presence poll acting on the shared state. -/
def facePollApp (now : Int) (r : FaceResult) (a : AppState) : AppState :=
  { a with distraction := (facePollUpdate now r a.distraction).1 }

/-- `togglePause` acting on the shared state: it only flips the session
pause flag and in particular leaves `distractionState.running` alone. -/
def togglePauseApp (a : AppState) : AppState :=
  { a with session := togglePause a.session }

/-- A concrete paused mid-session state: session active and paused,
distraction tracker running, user idle since t = 0. -/
def pausedApp : AppState :=
  { session := { initialSessionState with active := true, paused := true },
    distraction := startDistractionTracking 0 "screen",
    timer := ⟨some 1500, true⟩ }

lemma updateDistractionLoop_idle_accum (now : Int) (s : DistractionState)
    (hr : s.running = true) (hi : 1000 < now - s.lastActivityTime) :
    (updateDistractionLoop now s).mouseInactiveTime =
      s.mouseInactiveTime + CHECK_INTERVAL ∧
    (updateDistractionLoop now s).keyboardInactiveTime =
      s.keyboardInactiveTime + CHECK_INTERVAL := by
  unfold updateDistractionLoop
  simp only [hr, Bool.not_true, Bool.false_eq_true, if_false, if_pos hi]
  split_ifs <;>
    simp [checkDistraction_mouseInactiveTime, checkDistraction_keyboardInactiveTime]

/-- C8 counterexample: in a paused session whose distraction tracker is
running with the user idle for 2 s, the 1-second distraction tick still
adds 1000 ms to both idle-time accumulators — pausing does not freeze
idle accumulation. -/
theorem paused_tick_idle_accum_cex :
    pausedApp.session.paused = true ∧
    (distractionTickApp 2000 pausedApp).distraction.mouseInactiveTime = 1000 ∧
    (distractionTickApp 2000 pausedApp).distraction.keyboardInactiveTime = 1000 ∧
    pausedApp.distraction.mouseInactiveTime = 0 ∧
    pausedApp.distraction.keyboardInactiveTime = 0 := by
  have h := updateDistractionLoop_idle_accum 2000 pausedApp.distraction rfl
    (by simp [pausedApp, startDistractionTracking])
  refine ⟨rfl, ?_, ?_, rfl, rfl⟩
  · simpa [pausedApp, startDistractionTracking, CHECK_INTERVAL, distractionTickApp] using h.1
  · simpa [pausedApp, startDistractionTracking, CHECK_INTERVAL, distractionTickApp] using h.2

/-- C8 amended: while paused, the timer tick and the metrics-sync tick
are no-ops and the distraction tick leaves the session object unchanged,
but the distraction tick is not gated on the pause flag: whenever the
tracker is running and the idle time exceeds 1 s it adds `CHECK_INTERVAL`
ms to both idle accumulators, paused or not. -/
theorem paused_tick_frame (a : AppState) (now : Int)
    (hp : a.session.paused = true) :
    timerTickApp a = a ∧
    monitoringSyncTickApp a = a ∧
    (distractionTickApp now a).session = a.session ∧
    (a.distraction.running = true → 1000 < now - a.distraction.lastActivityTime →
      (distractionTickApp now a).distraction.mouseInactiveTime =
        a.distraction.mouseInactiveTime + CHECK_INTERVAL ∧
      (distractionTickApp now a).distraction.keyboardInactiveTime =
        a.distraction.keyboardInactiveTime + CHECK_INTERVAL) := by
  refine ⟨?_, ?_, rfl, ?_⟩
  · cases hi : a.timer.intervalActive <;>
      simp [timerTickApp, timerTick, hp, hi]
  · simp [monitoringSyncTickApp, monitoringSyncTick, hp]
  · intro hr hidle
    exact updateDistractionLoop_idle_accum now a.distraction hr hidle

/-- Witness for C8's amended theorem at the concrete paused state. -/
theorem paused_tick_frame_witness :
    timerTickApp pausedApp = pausedApp ∧
    (distractionTickApp 2000 pausedApp).distraction.mouseInactiveTime =
      pausedApp.distraction.mouseInactiveTime + CHECK_INTERVAL :=
  ⟨(paused_tick_frame pausedApp 2000 rfl).1,
    ((paused_tick_frame pausedApp 2000 rfl).2.2.2 rfl
      (by simp [pausedApp, startDistractionTracking])).1⟩

/-! ## End-of-session payload (C10) -/

/-- The operations that mutate the shared state during a session. -/
inductive AppOp where
  | timerT : AppOp
  | syncT : AppOp
  | distT : Int → AppOp
  | faceT : Int → FaceResult → AppOp
  | toggleP : AppOp

/-- Dispatch of one operation on the shared state. -/
def applyOp : AppOp → AppState → AppState
  | .timerT, a => timerTickApp a
  | .syncT, a => monitoringSyncTickApp a
  | .distT now, a => distractionTickApp now a
  | .faceT now r, a => facePollApp now r a
  | .toggleP, a => togglePauseApp a

/-- Running a whole interleaving of operations. -/
def runOps (a : AppState) : List AppOp → AppState
  | [] => a
  | op :: ops => runOps (applyOp op a) ops

/-- The shared state right after `startSession` → `startMonitoring` →
`startTimer`: the spread `{...sessionState, active, startTime, technique,
studyMode, cameraEnabled, duration: 0}` keeps every other session field at
its page-load initial value, the distraction module is re-initialized,
and the timer closure is installed. -/
def startedApp (now : Int) (technique studyMode : String) (cameraEnabled : Bool) : AppState :=
  let s := { initialSessionState with
    active := true, startTime := some now, technique := technique,
    studyMode := studyMode, cameraEnabled := cameraEnabled, duration := 0 }
  { session := s, distraction := startDistractionTracking now studyMode,
    timer := startTimer s }

/-- JavaScript `Math.round` on the nonnegative values used here: round
half up. -/
def jsRound (q : ℚ) : ℤ := ⌊q + 1 / 2⌋

/-- The body built in `endSession` and POSTed to `/api/sessions/end`. -/
structure EndPayload where
  duration : Nat
  distractions : Nat
  mouse_inactive_time : ℤ
  keyboard_inactive_time : ℤ
  tab_switches : Nat
  camera_absence_time : ℤ
  face_absence_time : ℤ
  user_state : String
  deriving Repr, DecidableEq

/-- The payload constructed by `endSession` from `sessionState`
(`user_state` falls back to `focused` when the current state is the empty,
falsy string). -/
def endSessionPayload (s : SessionState) : EndPayload :=
  { duration := s.duration
    distractions := s.distractions
    mouse_inactive_time := jsRound ((s.mouseInactiveTime : ℚ) / 1000)
    keyboard_inactive_time := jsRound ((s.keyboardInactiveTime : ℚ) / 1000)
    tab_switches := s.tabSwitches
    camera_absence_time := jsRound ((s.cameraAbsenceTime : ℚ) / 1000)
    face_absence_time := 0
    user_state := if s.currentState = "" then "focused" else s.currentState }

lemma timerTick_session_cameraAbsenceTime (s : SessionState) (t : TimerState) :
    (timerTick s t).1.cameraAbsenceTime = s.cameraAbsenceTime := by
  unfold timerTick
  split_ifs
  · rfl
  · rfl
  · cases t.remaining with
    | none => rfl
    | some r => by_cases h : r - 1 ≤ 0 <;> simp [h]

lemma applyOp_session_cameraAbsenceTime (op : AppOp) (a : AppState) :
    (applyOp op a).session.cameraAbsenceTime = a.session.cameraAbsenceTime := by
  cases op with
  | timerT => exact timerTick_session_cameraAbsenceTime a.session a.timer
  | syncT =>
    show (monitoringSyncTick a.session a.distraction).cameraAbsenceTime =
      a.session.cameraAbsenceTime
    unfold monitoringSyncTick
    split <;> rfl
  | distT now => rfl
  | faceT now r => rfl
  | toggleP => rfl

lemma runOps_session_cameraAbsenceTime (ops : List AppOp) (a : AppState) :
    (runOps a ops).session.cameraAbsenceTime = a.session.cameraAbsenceTime := by
  induction ops generalizing a with
  | nil => rfl
  | cons op ops ih =>
    show (runOps (applyOp op a) ops).session.cameraAbsenceTime = _
    rw [ih, applyOp_session_cameraAbsenceTime]

/-- C10: no operation of the session — timer tick, metrics sync,
distraction tick, presence poll, pause toggle — ever writes
`sessionState.cameraAbsenceTime`, so after any interleaving from a
freshly started session it is still 0 and the end-of-session payload
carries `camera_absence_time = 0`; meanwhile each failed presence poll
really does add 5000 ms of camera absence, but only to the distraction
module's own accumulator, which the sync never copies. -/
theorem camera_absence_not_synced :
    (∀ (op : AppOp) (a : AppState),
      (applyOp op a).session.cameraAbsenceTime = a.session.cameraAbsenceTime) ∧
    (∀ (ops : List AppOp) (now : Int) (tech mode : String) (cam : Bool),
      (runOps (startedApp now tech mode cam) ops).session.cameraAbsenceTime = 0 ∧
      (endSessionPayload
        (runOps (startedApp now tech mode cam) ops).session).camera_absence_time = 0) ∧
    (∀ (now : Int) (r : FaceResult) (a : AppState), r.face_detected = false →
      (facePollApp now r a).distraction.cameraAbsenceTime =
        a.distraction.cameraAbsenceTime + 5000) := by
  refine ⟨applyOp_session_cameraAbsenceTime, ?_, ?_⟩
  · intro ops now tech mode cam
    have h0 : (runOps (startedApp now tech mode cam) ops).session.cameraAbsenceTime = 0 := by
      rw [runOps_session_cameraAbsenceTime]
      rfl
    refine ⟨h0, ?_⟩
    show jsRound _ = 0
    rw [h0]
    norm_num [jsRound]
  · intro now r a hr
    show ((facePollUpdate now r a.distraction).1).cameraAbsenceTime = _
    unfold facePollUpdate
    rw [hr]
    simp only [Bool.not_false, if_pos rfl]
    split_ifs <;> simp [checkDistraction_cameraAbsenceTime]

/-- Witness for C10: a failed poll at a fresh tracker records 5000 ms of
camera absence in the distraction module (while the session copy stays
0 by the main theorem's unconditional parts). -/
theorem camera_absence_not_synced_witness :
    ((facePollApp 5000 ⟨false, 0⟩ (startedApp 0 "pomodoro" "screen" true)).distraction).cameraAbsenceTime =
      ((startedApp 0 "pomodoro" "screen" true).distraction).cameraAbsenceTime + 5000 :=
  camera_absence_not_synced.2.2 5000 ⟨false, 0⟩ (startedApp 0 "pomodoro" "screen" true) rfl

end FocusFlow
